import Mathlib

/-!
Verification development for the browser-atm-server product-page validation
engine (`src/services/BrowserTestService.js`).

The stateful Playwright API is shallowly embedded: a live page is a record of
query functions whose results are `Except String _` values (a `.error` models a
thrown exception from the browser driver, e.g. a detached node), and element
handles are records of the per-handle observations the code makes
(`isVisible`, `textContent`, `innerText`, `isEnabled`).  JavaScript strings
are Lean `String`s; JS `null`/`undefined` string results are `Option String`.
-/

namespace BrowserAtm

/-! ### JavaScript string primitives used by the source -/

/-- ASCII lowering of one character, as JS `toLowerCase` behaves on the ASCII
range actually exercised by the source's patterns. -/
def charLower (c : Char) : Char :=
  if c.toNat ≥ 65 && c.toNat ≤ 90 then Char.ofNat (c.toNat + 32) else c

/-- Embeds JS `String.prototype.toLowerCase` (ASCII range). -/
def lowerStr (s : String) : String :=
  String.mk (s.data.map charLower)

/-- Whitespace recognised by JS `trim` / regex `\s` (ASCII subset). -/
def isWsChar (c : Char) : Bool :=
  c = ' ' || c = '\t' || c = '\n' || c = '\r' || c = '\x0b' || c = '\x0c'

/-- Embeds JS `String.prototype.trim` on the character list. -/
def trimList (cs : List Char) : List Char :=
  ((cs.dropWhile isWsChar).reverse.dropWhile isWsChar).reverse

/-- Embeds JS `String.prototype.trim`. -/
def trimStr (s : String) : String :=
  String.mk (trimList s.data)

/-- Decidable list-prefix test. -/
def isPrefixList : List Char → List Char → Bool
  | [], _ => true
  | _ :: _, [] => false
  | a :: as, b :: bs => a == b && isPrefixList as bs

/-- Does `hay` contain `needle` as a contiguous sublist? -/
def containsList (needle : List Char) : List Char → Bool
  | [] => isPrefixList needle []
  | c :: rest => isPrefixList needle (c :: rest) || containsList needle rest

/-- Embeds JS `hay.includes(needle)`. -/
def jsIncludes (hay needle : String) : Bool :=
  containsList needle.data hay.data

/-- JS `a || b` on nullable strings: `null`, `undefined` and `""` are falsy. -/
def jsOr (a b : Option String) : Option String :=
  match a with
  | some s => if s = "" then b else some s
  | none => b

/-- JS `(a || b || '')` on nullable strings. -/
def orEmpty (a b : Option String) : String :=
  (jsOr a b).getD ""

/-! ### Regular-expression patterns of the source, as decidable predicates

The source stores literal `RegExp` objects inside its element configurations.
Each regex that appears in `BrowserTestService.js` is embedded below as an
executable Boolean predicate with exactly the source regex's match semantics
(restricted to the ASCII inputs the patterns are designed for). -/

/-- All suffixes of a character list (the candidate match start positions). -/
def tailsList : List Char → List (List Char)
  | [] => [[]]
  | c :: rest => (c :: rest) :: tailsList rest

/-- Regex word character (`\w`). -/
def isWordChar (c : Char) : Bool :=
  c.isAlphanum || c = '_'

/-- Word boundary between a previous character and the current position. -/
def boundaryPrev (prev : Option Char) : Bool :=
  match prev with
  | none => true
  | some c => !isWordChar c

/-- Word boundary at the start of the remaining input `t`. -/
def boundaryNext (t : List Char) : Bool :=
  match t with
  | [] => true
  | c :: _ => !isWordChar c

/-- Scan all positions of the input, tracking the previous character, and test
a position predicate at each. -/
def scanPrev (p : Option Char → List Char → Bool) : Option Char → List Char → Bool
  | prev, [] => p prev []
  | prev, c :: rest => p prev (c :: rest) || scanPrev p (some c) rest

/-- Case-insensitive list-prefix test (ASCII). -/
def ciPrefixList (pat t : List Char) : Bool :=
  isPrefixList (pat.map charLower) ((t.take pat.length).map charLower)

/-- Drop regex `\s*` whitespace. -/
def dropWs (cs : List Char) : List Char :=
  cs.dropWhile isWsChar

/-- Match a sequence of literal parts joined by `\s*`, case-insensitively,
anchored at the head of the input. -/
def partsAt : List (List Char) → List Char → Bool
  | [], _ => true
  | p :: ps, t => ciPrefixList p t && partsAt ps (dropWs (t.drop p.length))

/-- A regex of shape `/a\s*b\s*.../i`: the parts occur in order somewhere in
the input, separated by optional whitespace. -/
def rePartsCI (parts : List String) (s : String) : Bool :=
  (tailsList s.data).any (partsAt (parts.map String.data))

/-- A regex of shape `/\d+\s*a\s*b.../i`. -/
def reDigitsThenParts (parts : List String) (s : String) : Bool :=
  (tailsList s.data).any fun t =>
    let ds := t.takeWhile Char.isDigit
    decide (ds.length > 0) && partsAt (parts.map String.data) (dropWs (t.drop ds.length))

/-- A currency regex of shape `/SYM\s*[\d,]+\.?\d*\/i`: the symbol, optional
whitespace, then at least one digit or comma (the tail of the regex is
optional, so it never blocks a match). -/
def reCurrencyNum (sym : String) (s : String) : Bool :=
  (tailsList s.data).any fun t =>
    ciPrefixList sym.data t &&
      (match dropWs (t.drop sym.data.length) with
       | c :: _ => c.isDigit || c = ','
       | [] => false)

/-- Head-anchored matcher for `\d+\.\d{2}\b` (the leading `\b` is checked by
the caller via `boundaryPrev`). -/
def decimalTwoAt (t : List Char) : Bool :=
  let ds := t.takeWhile Char.isDigit
  decide (ds.length > 0) &&
    (match t.drop ds.length with
     | '.' :: a :: b :: rest => a.isDigit && b.isDigit && boundaryNext rest
     | _ => false)

/-- Embeds the source regex `/\b\d+\.\d{2}\b/`. -/
def reDecimalTwo (s : String) : Bool :=
  scanPrev (fun prev t => boundaryPrev prev && decimalTwoAt t) none s.data

/-- Tail of `/\b\d{1,3}(,\d{3})*(\.\d{2})?\b/` after the leading digits:
`(\.\d{2})?\b` with backtracking. -/
def groupedTailEnd (t : List Char) : Bool :=
  (match t with
   | '.' :: a :: b :: rest => a.isDigit && b.isDigit && boundaryNext rest
   | _ => false) || boundaryNext t

/-- `(,\d{3})*(\.\d{2})?\b` with backtracking over the group count. -/
def groupedTail : List Char → Bool
  | ',' :: a :: b :: c :: rest =>
    groupedTailEnd (',' :: a :: b :: c :: rest) ||
      (a.isDigit && b.isDigit && c.isDigit && groupedTail rest)
  | t => groupedTailEnd t

/-- Head-anchored matcher for `\d{1,3}(,\d{3})*(\.\d{2})?\b`. -/
def groupedNumAt (t : List Char) : Bool :=
  [1, 2, 3].any fun d =>
    let lead := t.take d
    decide (lead.length = d) && lead.all Char.isDigit && groupedTail (t.drop d)

/-- Embeds the source regex `/\b\d{1,3}(,\d{3})*(\.\d{2})?\b/`. -/
def reGroupedNum (s : String) : Bool :=
  scanPrev (fun prev t => boundaryPrev prev && groupedNumAt t) none s.data

/-! ### The page and element model

`Element` records the observations the source makes on one Playwright element
handle.  Each observation is an `Except String _`: `.error msg` models the
driver call throwing (detached node, closed page, ...). -/

instance {ε α : Type} [DecidableEq ε] [DecidableEq α] : DecidableEq (Except ε α) := fun x y =>
  match x, y with
  | .ok a, .ok b =>
    if h : a = b then .isTrue (congrArg Except.ok h)
    else .isFalse (fun hc => h (Except.ok.inj hc))
  | .error a, .error b =>
    if h : a = b then .isTrue (congrArg Except.error h)
    else .isFalse (fun hc => h (Except.error.inj hc))
  | .ok _, .error _ => .isFalse (fun hc => Except.noConfusion hc)
  | .error _, .ok _ => .isFalse (fun hc => Except.noConfusion hc)

structure Element where
  isVisible : Except String Bool
  textContent : Except String (Option String)
  innerText : Except String (Option String)
  isEnabled : Except String Bool
deriving DecidableEq, Repr

/-- Result of the in-browser full-document scan of strategy 4 (the object the
`page.evaluate` callback returns: matched text, a synthesized selector and the
tag name). -/
structure ScanHit where
  text : String
  selector : String
  tagName : String
deriving DecidableEq, Repr

/-- A content pattern as stored in an element configuration: a literal string
(matched as a case-insensitive substring) or a `RegExp` (embedded as its test
predicate). -/
inductive ContentPattern
  | str (s : String)
  | regex (test : String → Bool)

/-- Embeds the pattern test of `findElementWithMultipleStrategies`:
`pattern instanceof RegExp ? pattern.test(content)
: content.toLowerCase().includes(pattern.toLowerCase())`. -/
def patternTest (p : ContentPattern) (content : String) : Bool :=
  match p with
  | .str s => jsIncludes (lowerStr content) (lowerStr s)
  | .regex t => t content

/-- A live page: the query surface the source uses.  `queryAll` is
`page.$$(selector)`, `queryOne` is `page.$(selector)`, `getByText` is
`page.getByText(pattern, { exact: false })` viewed as the matched element list
(its `count()` is the length and `first()` the head), and `evalScan` is the
`page.evaluate` full-document content scan of strategy 4 (the in-browser
visibility filtering and pattern testing happen inside the browser, so they
are part of the page's behaviour). -/
structure Page where
  queryAll : String → Except String (List Element)
  queryOne : String → Except String (Option Element)
  getByText : String → Except String (List Element)
  evalScan : List ContentPattern → Except String (Option ScanHit)

/-- An attribute-name/value-fragment pair from an element configuration. -/
structure AttrPair where
  name : String
  value : String
deriving DecidableEq, Repr

/-- An element search configuration (`elementConfig` in the source).  The
defaults mirror the destructuring
`const { selectors = [], textPatterns = [], contentPatterns = [], attributes = [] } = elementConfig`. -/
structure ElementSpec where
  selectors : List String := []
  textPatterns : List String := []
  contentPatterns : List ContentPattern := []
  attributes : List AttrPair := []

/-- A successful locate outcome: the element handle, extracted text, the
selector (or pattern) that matched, and the strategy tag. -/
structure LocateResult where
  element : Element
  text : String
  selector : String
  strategy : String
deriving DecidableEq, Repr

/-- Embeds the content extraction of strategy 1:
`text = await element.textContent(); innerText = await element.innerText().catch(() => text);
content = (innerText || text || '').trim()`.  A `textContent` failure
propagates (it is only caught at the per-selector level); an `innerText`
failure falls back to `text`. -/
def elemContent (e : Element) : Except String String :=
  match e.textContent with
  | .error msg => .error msg
  | .ok text =>
    let innerText := match e.innerText with
      | .ok v => v
      | .error _ => text
    .ok (trimStr (orEmpty innerText text))

/-- The per-element loop body of strategy 1 over one selector's matches:
visible elements with non-empty content are accepted, filtered by the content
patterns when any are configured. -/
def scanElements (cps : List ContentPattern) (sel : String) :
    List Element → Except String (Option LocateResult)
  | [] => .ok none
  | e :: rest =>
    match e.isVisible with
    | .error msg => .error msg
    | .ok vis =>
      if vis then
        match elemContent e with
        | .error msg => .error msg
        | .ok content =>
          if content.length > 0 then
            if cps.length > 0 then
              if cps.any (fun p => patternTest p content) then
                .ok (some ⟨e, content, sel, "css-pattern"⟩)
              else
                scanElements cps sel rest
            else
              .ok (some ⟨e, content, sel, "css"⟩)
          else
            scanElements cps sel rest
      else
        scanElements cps sel rest

/-- The body of the strategy-1 `try` block for one selector. -/
def trySelector (pg : Page) (cps : List ContentPattern) (sel : String) :
    Except String (Option LocateResult) :=
  match pg.queryAll sel with
  | .error msg => .error msg
  | .ok elements => scanElements cps sel elements

/-- Strategy 1: CSS selectors with visibility and content checks.  The
source's `try { ... } catch (e) { /* continue to next selector */ }` appears
as the `.error` arm. -/
def strat1 (pg : Page) (cps : List ContentPattern) :
    List String → Except String (Option LocateResult)
  | [] => .ok none
  | sel :: rest =>
    match trySelector pg cps sel with
    | .ok (some r) => .ok (some r)
    | .ok none => strat1 pg cps rest
    | .error _ => strat1 pg cps rest

/-- The body of the strategy-2 `try` block for one text pattern:
`getByText(pattern, { exact: false })`, `count() > 0`, then visibility and
text extraction on `first()`. -/
def tryTextPattern (pg : Page) (pat : String) : Except String (Option LocateResult) :=
  match pg.getByText pat with
  | .error msg => .error msg
  | .ok [] => .ok none
  | .ok (first :: _) =>
    match first.isVisible with
    | .error msg => .error msg
    | .ok vis =>
      if vis then
        match first.textContent with
        | .error msg => .error msg
        | .ok text => .ok (some ⟨first, trimStr (text.getD ""), "text:" ++ pat, "text"⟩)
      else
        .ok none

/-- Strategy 2: search by visible text, catching per-pattern failures. -/
def strat2 (pg : Page) : List String → Except String (Option LocateResult)
  | [] => .ok none
  | pat :: rest =>
    match tryTextPattern pg pat with
    | .ok (some r) => .ok (some r)
    | .ok none => strat2 pg rest
    | .error _ => strat2 pg rest

/-- The attribute selector string `[name*="value"]` built by strategy 3. -/
def attrSelector (a : AttrPair) : String :=
  "[" ++ a.name ++ "*=\"" ++ a.value ++ "\"]"

/-- The per-element loop of strategy 3 (no `innerText` fallback here:
`content = text?.trim() || ''`). -/
def scanAttrElements (sel : String) : List Element → Except String (Option LocateResult)
  | [] => .ok none
  | e :: rest =>
    match e.isVisible with
    | .error msg => .error msg
    | .ok vis =>
      if vis then
        match e.textContent with
        | .error msg => .error msg
        | .ok text =>
          let content := trimStr (text.getD "")
          if content.length > 0 then
            .ok (some ⟨e, content, sel, "attribute"⟩)
          else
            scanAttrElements sel rest
      else
        scanAttrElements sel rest

/-- The body of the strategy-3 `try` block for one attribute pair. -/
def tryAttr (pg : Page) (a : AttrPair) : Except String (Option LocateResult) :=
  match pg.queryAll (attrSelector a) with
  | .error msg => .error msg
  | .ok elements => scanAttrElements (attrSelector a) elements

/-- Strategy 3: search by attribute value fragments, catching per-attribute
failures. -/
def strat3 (pg : Page) : List AttrPair → Except String (Option LocateResult)
  | [] => .ok none
  | a :: rest =>
    match tryAttr pg a with
    | .ok (some r) => .ok (some r)
    | .ok none => strat3 pg rest
    | .error _ => strat3 pg rest

/-- Strategy 4: full-document content scan, run only when content patterns
are configured.  Both the `page.evaluate` call (outer `try`) and the
re-resolution `page.$(result.selector).catch(() => null)` swallow failures. -/
def strat4 (pg : Page) (cps : List ContentPattern) : Option LocateResult :=
  if cps.length > 0 then
    match pg.evalScan cps with
    | .error _ => none
    | .ok none => none
    | .ok (some hit) =>
      match pg.queryOne hit.selector with
      | .error _ => none
      | .ok none => none
      | .ok (some e) => some ⟨e, hit.text, hit.selector, "content-search"⟩
  else
    none

/-- Embeds `findElementWithMultipleStrategies(page, elementConfig)`: the four
strategies in fixed priority order, short-circuiting on the first success and
returning `null` when all miss. -/
def findElementWithMultipleStrategies (pg : Page) (cfg : ElementSpec) :
    Except String (Option LocateResult) :=
  match strat1 pg cfg.contentPatterns cfg.selectors with
  | .error msg => .error msg
  | .ok (some r) => .ok (some r)
  | .ok none =>
    match strat2 pg cfg.textPatterns with
    | .error msg => .error msg
    | .ok (some r) => .ok (some r)
    | .ok none =>
      match strat3 pg cfg.attributes with
      | .error msg => .error msg
      | .ok (some r) => .ok (some r)
      | .ok none => .ok (strat4 pg cfg.contentPatterns)

/-! ### The six fixed element configurations of `testProductPage` -/

/-- `titleConfig` of `testProductPage`. -/
def titleConfig : ElementSpec where
  selectors := [
    "h1", "h2", "h3",
    "[class*=\"title\" i]", "[class*=\"name\" i]", "[class*=\"product\" i]",
    "[data-testid*=\"title\" i]", "[data-testid*=\"name\" i]",
    "[data-testid*=\"product\" i]", "[id*=\"title\" i]", "[id*=\"name\" i]",
    ".product-title", ".product-name", ".item-title", ".item-name",
    ".pdp-title", ".entry-title", ".main-title", ".page-title",
    "[itemprop=\"name\"]", "[role=\"heading\"]"]
  attributes := [
    ⟨"data-testid", "title"⟩,
    ⟨"data-testid", "name"⟩,
    ⟨"data-testid", "product"⟩,
    ⟨"itemprop", "name"⟩]

/-- `priceConfig` of `testProductPage`; the eight `RegExp` content patterns
are the embedded matchers defined above, in source order. -/
def priceConfig : ElementSpec where
  selectors := [
    "[class*=\"price\" i]:not([class*=\"compare\" i]):not([class*=\"was\" i]):not([class*=\"original\" i])",
    "[data-testid*=\"price\" i]", "[data-price]", "[data-product-price]",
    ".money", ".currency", ".cost", ".amount", ".value",
    "[id*=\"price\" i]", "[itemprop=\"price\"]", "[itemprop=\"offers\"] [itemprop=\"price\"]",
    ".current-price", ".sale-price", ".selling-price", ".final-price",
    ".product-price", ".item-price", ".pdp-price"]
  contentPatterns := [
    .regex (reCurrencyNum "$"),
    .regex (reCurrencyNum "₹"),
    .regex (reCurrencyNum "€"),
    .regex (reCurrencyNum "£"),
    .regex (reCurrencyNum "USD"),
    .regex (reCurrencyNum "INR"),
    .regex reDecimalTwo,
    .regex reGroupedNum]
  attributes := [
    ⟨"data-testid", "price"⟩,
    ⟨"data-price", ""⟩,
    ⟨"itemprop", "price"⟩]

/-- `cartConfig` of `testProductPage`. -/
def cartConfig : ElementSpec where
  selectors := [
    "button[type=\"submit\"]", "input[type=\"submit\"]",
    "[class*=\"add\" i][class*=\"cart\" i]", "[class*=\"cart\" i][class*=\"btn\" i]",
    "[class*=\"buy\" i]", "[class*=\"purchase\" i]", "[class*=\"shop\" i]",
    "button", "input[type=\"button\"]", "[role=\"button\"]",
    "[data-testid*=\"add\" i]", "[data-testid*=\"cart\" i]", "[data-testid*=\"buy\" i]"]
  textPatterns := [
    "Add to Cart", "Add to Bag", "Buy Now", "Purchase", "Add to Basket",
    "Shop Now", "Order Now", "Add", "Buy", "Cart"]
  attributes := [
    ⟨"data-testid", "add"⟩,
    ⟨"data-testid", "cart"⟩,
    ⟨"data-action", "add-to-cart"⟩]

/-- `descConfig` of `testProductPage`. -/
def descConfig : ElementSpec where
  selectors := [
    "[class*=\"description\" i]", "[class*=\"details\" i]", "[class*=\"summary\" i]",
    "[data-testid*=\"description\" i]", "[data-testid*=\"details\" i]",
    "[id*=\"description\" i]", "[id*=\"details\" i]",
    ".product-description", ".item-description", ".product-details",
    ".product-summary", ".product-info", ".description",
    "[itemprop=\"description\"]", ".desc", ".details", ".summary"]
  attributes := [
    ⟨"data-testid", "description"⟩,
    ⟨"itemprop", "description"⟩]

/-- `variantConfig` of `testProductPage`. -/
def variantConfig : ElementSpec where
  selectors := [
    "[class*=\"variant\" i]", "[class*=\"option\" i]", "[class*=\"choice\" i]",
    "[class*=\"size\" i]", "[class*=\"color\" i]", "[class*=\"style\" i]",
    "select", "input[type=\"radio\"]", "input[type=\"checkbox\"]",
    "[data-testid*=\"variant\" i]", "[data-testid*=\"option\" i]",
    ".swatch", ".picker", ".selector"]
  attributes := [
    ⟨"data-testid", "variant"⟩,
    ⟨"name", "variant"⟩,
    ⟨"name", "option"⟩]

/-- `availConfig` of `testProductPage`; the seven `RegExp` content patterns
are the embedded matchers, in source order. -/
def availConfig : ElementSpec where
  selectors := [
    "[class*=\"availability\" i]", "[class*=\"stock\" i]", "[class*=\"inventory\" i]",
    "[data-testid*=\"stock\" i]", "[data-testid*=\"availability\" i]",
    ".in-stock", ".out-of-stock", ".stock-status"]
  textPatterns := [
    "In Stock", "Out of Stock", "Available", "Unavailable",
    "In stock", "out of stock", "available", "unavailable"]
  contentPatterns := [
    .regex (rePartsCI ["in", "stock"]),
    .regex (rePartsCI ["out", "of", "stock"]),
    .regex (rePartsCI ["available"]),
    .regex (rePartsCI ["unavailable"]),
    .regex (reDigitsThenParts ["in", "stock"]),
    .regex (reDigitsThenParts ["left"]),
    .regex (reDigitsThenParts ["remaining"])]
  attributes := [
    ⟨"data-testid", "stock"⟩,
    ⟨"data-testid", "availability"⟩]

/-! ### Per-element checks and the PageResult shape -/

/-- The shape shared by the title, price and description checks. -/
structure TextCheck where
  present : Bool := false
  text : String := ""
  selector : String := ""
  strategy : String := ""
deriving DecidableEq, Repr

/-- The add-to-cart check. -/
structure CartCheck where
  present : Bool := false
  clickable : Bool := false
  selector : String := ""
  strategy : String := ""
deriving DecidableEq, Repr

/-- The variants check. -/
structure VariantsCheck where
  present : Bool := false
  count : Nat := 0
  selector : String := ""
  strategy : String := ""
deriving DecidableEq, Repr

/-- The availability check, with the tri-state stock flag
(`some true` / `some false` / `none` for JS `true` / `false` / `null`). -/
structure AvailCheck where
  present : Bool := false
  text : String := ""
  inStock : Option Bool := none
  selector : String := ""
  strategy : String := ""
deriving DecidableEq, Repr

/-- The six element checks of one PageResult, in their default absent shape
unless filled in. -/
structure Elements where
  title : TextCheck := {}
  price : TextCheck := {}
  addToCart : CartCheck := {}
  description : TextCheck := {}
  variants : VariantsCheck := {}
  availability : AvailCheck := {}
deriving DecidableEq, Repr

/-- Timing metrics of one PageResult (`timeToInteractive` is a placeholder
the source never sets). -/
structure Perf where
  loadTime : Nat := 0
  timeToInteractive : Nat := 0
deriving DecidableEq, Repr

/-- One URL's validation outcome (`result` in `testProductPage`). -/
structure PageResult where
  url : String
  passed : Bool := false
  elements : Elements := {}
  performance : Perf := {}
  errors : List String := []
deriving DecidableEq, Repr

/-! ### The per-element result updates of `testProductPage` -/

/-- Embeds JS `substring(0, n)`. -/
def takeStr (n : Nat) (s : String) : String :=
  String.mk (s.data.take n)

/-- Embeds lines 527-533: the tri-state stock flag derived from the matched
availability text.  The two branches are tested in order on
`availResult.text.toLowerCase()`; `inStock` keeps its default `null` when
neither fires. -/
def deriveInStock (text : String) : Option Bool :=
  let stockText := lowerStr text
  if jsIncludes stockText "in stock" || jsIncludes stockText "available" then
    some true
  else if jsIncludes stockText "out of stock" || jsIncludes stockText "unavailable" then
    some false
  else
    none

/-- Embeds the clickability check of the add-to-cart block:
`await element.isEnabled() && await element.isVisible()` inside a `try` whose
`catch` sets `clickable = true`.  `&&` short-circuits, so a false `isEnabled`
skips `isVisible` entirely. -/
def checkClickable (e : Element) : Bool :=
  match e.isEnabled with
  | .error _ => true
  | .ok false => false
  | .ok true =>
    match e.isVisible with
    | .error _ => true
    | .ok v => v

/-- The `if (titleResult) { ... }` update. -/
def applyTitle (res : PageResult) : Option LocateResult → PageResult
  | some r =>
    { res with elements.title := ⟨true, r.text, r.selector, r.strategy⟩ }
  | none => res

/-- The `if (priceResult) { ... }` update. -/
def applyPrice (res : PageResult) : Option LocateResult → PageResult
  | some r =>
    { res with elements.price := ⟨true, r.text, r.selector, r.strategy⟩ }
  | none => res

/-- The `if (cartResult) { ... }` update, including the clickability check. -/
def applyAddToCart (res : PageResult) : Option LocateResult → PageResult
  | some r =>
    { res with elements.addToCart := ⟨true, checkClickable r.element, r.selector, r.strategy⟩ }
  | none => res

/-- The `if (descResult) { ... }` update: the stored text is
`descResult.text.substring(0, 200)`. -/
def applyDescription (res : PageResult) : Option LocateResult → PageResult
  | some r =>
    { res with elements.description := ⟨true, takeStr 200 r.text, r.selector, r.strategy⟩ }
  | none => res

/-- The `if (availResult) { ... }` update, including the stock derivation. -/
def applyAvailability (res : PageResult) : Option LocateResult → PageResult
  | some r =>
    { res with elements.availability :=
        ⟨true, r.text, deriveInStock r.text, r.selector, r.strategy⟩ }
  | none => res

/-- Embeds lines 537-539: the relaxed pass criterion. -/
def computePassed (e : Elements) : Bool :=
  e.title.present && e.price.present && (e.addToCart.present || e.variants.present)

/-! ### The variant two-tier counting of `testProductPage` -/

/-- One variant option container found by
`page.$$('[class*="variant" i], [class*="option" i], .product-options, .product-variants')`;
`options` is the result of
`container.$$('button, input, select, .swatch, [role="button"]')`, which can
itself throw. -/
structure Container where
  options : Except String (List Element)

/-- The environment of one `testProductPage` call: the outcome of the
navigation and settle waits, the live DOM for element queries, the variant
container query result, and the measured load time.  (The
`waitForLoadState('networkidle')` wait carries its own `.catch(() => {})` and
can never throw, so it has no observable effect on the result and is not a
field.) -/
structure PageEnv where
  gotoR : Except String Unit
  waitTimeoutR : Except String Unit
  dom : Page
  variantContainers : Except String (List Container)
  loadTimeMs : Nat

/-- Tier 1 of variant counting: walk the containers in DOM order; the first
one with interactive children contributes its child count
(`variantCount += options.length; ...; break`), with selector
`'container-based'` and strategy `'container'`. -/
def countContainerOptions : List Container → Except String (Nat × String × String)
  | [] => .ok (0, "", "")
  | c :: rest =>
    match c.options with
    | .error msg => .error msg
    | .ok options =>
      if options.length > 0 then
        .ok (options.length, "container-based", "container")
      else
        countContainerOptions rest

/-- Total wrapper around the locator.  `locate_isOk` below proves the
`.error` arm unreachable (every fallible step inside
`findElementWithMultipleStrategies` sits under a `catch`), so collapsing it
is semantics-preserving; `testProductPage` uses this form. -/
def locate (pg : Page) (cfg : ElementSpec) : Option LocateResult :=
  match findElementWithMultipleStrategies pg cfg with
  | .ok v => v
  | .error _ => none

/-- Tier 2 of variant counting: fall back to the element locator and count
all elements sharing the matched selector (`page.$$(variantResult.selector)`,
which can throw). -/
def variantTier2 (env : PageEnv) : Except String (Nat × String × String) :=
  match locate env.dom variantConfig with
  | some variantResult =>
    match env.dom.queryAll variantResult.selector with
    | .error msg => .error msg
    | .ok allVariants =>
      .ok (allVariants.length, variantResult.selector, variantResult.strategy)
  | none => .ok (0, "", "")

/-- The whole variant-counting `try` body (lines 465-487): tier 1, then
tier 2 only when tier 1 counted zero. -/
def variantBlock (env : PageEnv) : Except String (Nat × String × String) :=
  match env.variantContainers with
  | .error msg => .error msg
  | .ok containers =>
    match countContainerOptions containers with
    | .error msg => .error msg
    | .ok tier1 =>
      if tier1.1 = 0 then
        variantTier2 env
      else
        .ok tier1

/-- The `catch` and the `if (variantCount > 0)` update of the variant block.
On a caught exception the count is necessarily still `0` (every assignment to
`variantCount` is the last fallible-dependent step on its path), so only the
error message is recorded. -/
def applyVariants (res : PageResult) : Except String (Nat × String × String) → PageResult
  | .ok (n, sel, strat) =>
    if n > 0 then
      { res with elements.variants := ⟨true, n, sel, strat⟩ }
    else
      res
  | .error msg =>
    { res with errors := res.errors ++ ["Variant detection error: " ++ msg] }

/-! ### `testProductPage` -/

/-- Embeds `testProductPage(page, url, settings)`.  The default `result`
literal is built first; the outer `try` covers navigation and the settle
wait, whose exceptions land in `result.errors` with everything else still in
its default shape; after a successful load, the six element checks run in
source order and the pass verdict is derived last. -/
def testProductPage (env : PageEnv) (url : String) : PageResult :=
  let result0 : PageResult := { url := url }
  match env.gotoR with
  | .error msg => { result0 with errors := result0.errors ++ [msg] }
  | .ok _ =>
    match env.waitTimeoutR with
    | .error msg => { result0 with errors := result0.errors ++ [msg] }
    | .ok _ =>
      let res1 := { result0 with performance.loadTime := env.loadTimeMs }
      let res2 := applyTitle res1 (locate env.dom titleConfig)
      let res3 := applyPrice res2 (locate env.dom priceConfig)
      let res4 := applyAddToCart res3 (locate env.dom cartConfig)
      let res5 := applyDescription res4 (locate env.dom descConfig)
      let res6 := applyVariants res5 (variantBlock env)
      let res7 := applyAvailability res6 (locate env.dom availConfig)
      { res7 with passed := computePassed res7.elements }

/-! ### `runTest` and the execution lifecycle -/

/-- The lifecycle status of a test execution (`testResultSchema.status`). -/
inductive Status
  | running
  | completed
  | failed
  | cancelled
deriving DecidableEq, Repr

/-- The narrative-analysis payload attached after the browser phase
(`AIAnalysisService.analyzeTestResults` return shape). -/
structure AIAnalysis where
  summary : String := ""
  recommendations : List String := []
  riskLevel : String := ""
  score : Nat := 0
deriving DecidableEq, Repr

/-- One image record of `testImageLoading` (kept abstract: no claim concerns
its internals). -/
structure ImageRec where
  url : String := ""
  src : String := ""
  loaded : Bool := false
deriving DecidableEq, Repr

/-- The in-memory `TestResult` document as `runTest` mutates it.  Times are
abstract millisecond stamps. -/
structure TestResultRec where
  status : Status := .running
  startTime : Nat
  endTime : Option Nat := none
  duration : Option Nat := none
  productPageTests : List PageResult := []
  imageValidation : List ImageRec := []
  aiAnalysis : Option AIAnalysis := none
deriving DecidableEq, Repr

/-- The environment of one `runTest` call: the outcome of each fallible
external step, in program order.  `pages` pairs each configured product-page
URL with the page behaviour the browser exhibits for it;
`testImageLoading` catches all its per-URL failures internally and so is
modelled by its result list. -/
structure RunEnv where
  startTime : Nat
  createSaveR : Except String Unit
  acquireR : Except String Unit
  pages : List (String × PageEnv)
  imagesR : List ImageRec
  closeR : Except String Unit
  aiR : Except String AIAnalysis
  finalSaveR : Except String Unit
  failSaveR : Except String Unit
  endTimeOk : Nat
  endTimeFail : Nat

/-- The observable outcome of one `runTest` call: the returned record or the
propagated exception, the snapshots successfully handed to the persistence
collaborator in order, and the sequence of status values the record held over
time (head = the value at creation). -/
structure RunOutcome where
  result : Except String TestResultRec
  saved : List TestResultRec
  statusTrace : List Status

/-- The `catch` block of `runTest`: set status `failed`, stamp end time and
duration, persist, then rethrow.  When that save itself throws, its error
replaces the original and no snapshot is persisted. -/
def catchPath (env : RunEnv) (tr : TestResultRec) (saved : List TestResultRec)
    (trace : List Status) (origErr : String) : RunOutcome :=
  let trF := { tr with
    status := .failed,
    endTime := some env.endTimeFail,
    duration := some (env.endTimeFail - tr.startTime) }
  match env.failSaveR with
  | .ok _ => ⟨.error origErr, saved ++ [trF], trace ++ [.failed]⟩
  | .error msg2 => ⟨.error msg2, saved, trace ++ [.failed]⟩

/-- Embeds `runTest(configuration)`: create the record in `running` state,
persist, acquire the browser context, validate every configured product page
sequentially, audit images, close the context, attach the narrative
analysis, finalize to `completed` and persist — any exception diverting to
`catchPath`.  (The error-listener registration and the `errorDetection`
aggregate assignment are pure bookkeeping with no failure mode and are not
modelled as separate steps.) -/
def runTest (env : RunEnv) : RunOutcome :=
  let tr0 : TestResultRec := { startTime := env.startTime }
  let trace0 : List Status := [.running]
  match env.createSaveR with
  | .error msg => catchPath env tr0 [] trace0 msg
  | .ok _ =>
    let saved1 := [tr0]
    match env.acquireR with
    | .error msg => catchPath env tr0 saved1 trace0 msg
    | .ok _ =>
      let pageResults := env.pages.map (fun p => testProductPage p.2 p.1)
      let tr1 := { tr0 with productPageTests := pageResults }
      let tr2 := { tr1 with imageValidation := env.imagesR }
      match env.closeR with
      | .error msg => catchPath env tr2 saved1 trace0 msg
      | .ok _ =>
        match env.aiR with
        | .error msg => catchPath env tr2 saved1 trace0 msg
        | .ok ai =>
          let tr3 := { tr2 with aiAnalysis := some ai }
          let tr4 := { tr3 with
            status := .completed,
            endTime := some env.endTimeOk,
            duration := some (env.endTimeOk - tr3.startTime) }
          match env.finalSaveR with
          | .error msg => catchPath env tr4 saved1 (trace0 ++ [.completed]) msg
          | .ok _ => ⟨.ok tr4, saved1 ++ [tr4], trace0 ++ [.completed]⟩

/-! ### Specification-side reference definitions

`specFirstVisible` is written from the spec's words (§8: "locate returns the
first visible element with non-empty text among the selector list, in
selector-list order (tie-break: selector order, then DOM order within a
selector's matches)"), to be compared with the source-derived locator. -/

/-- An element handle none of whose observations throws. -/
def ElemOpsOk (e : Element) : Prop :=
  (∃ b, e.isVisible = .ok b) ∧ (∃ t, e.textContent = .ok t) ∧ (∃ t, e.innerText = .ok t)

/-- A page on which every listed structural selector query succeeds and every
returned handle is healthy. -/
def SelectorsOk (pg : Page) (sels : List String) : Prop :=
  ∀ sel ∈ sels, ∃ es, pg.queryAll sel = .ok es ∧ ∀ e ∈ es, ElemOpsOk e

/-- The element's visibility, read off a healthy handle. -/
def elemVisibleD (e : Element) : Bool :=
  match e.isVisible with
  | .ok b => b
  | .error _ => false

/-- The element's extracted text, read off a healthy handle (rendered text
preferred, falling back to raw text content, trimmed — the notion of element
text used throughout the design). -/
def specElemText (e : Element) : String :=
  trimStr (orEmpty (e.innerText.toOption.getD none) (e.textContent.toOption.getD none))

/-- The first visible element with non-empty text, in DOM order. -/
def firstGoodElem : List Element → Option Element
  | [] => none
  | e :: rest =>
    if elemVisibleD e && (specElemText e).length > 0 then some e
    else firstGoodElem rest

/-- Spec §8 reference behaviour: the first visible element with non-empty
text, in selector-list order then DOM order, tagged `css` with the matching
selector as provenance. -/
def specFirstVisible (pg : Page) : List String → Option LocateResult
  | [] => none
  | sel :: rest =>
    match pg.queryAll sel with
    | .error _ => specFirstVisible pg rest
    | .ok es =>
      match firstGoodElem es with
      | some e => some ⟨e, specElemText e, sel, "css"⟩
      | none => specFirstVisible pg rest

/-- A page with zero matching elements for every strategy of a given spec. -/
def NoMatches (pg : Page) (cfg : ElementSpec) : Prop :=
  (∀ sel ∈ cfg.selectors, pg.queryAll sel = .ok []) ∧
  (∀ pat ∈ cfg.textPatterns, pg.getByText pat = .ok []) ∧
  (∀ a ∈ cfg.attributes, pg.queryAll (attrSelector a) = .ok []) ∧
  pg.evalScan cfg.contentPatterns = .ok none

/-! ### Shared lemmas about the locator -/

theorem strat1_isOk (pg : Page) (cps : List ContentPattern) :
    ∀ sels, ∃ v, strat1 pg cps sels = Except.ok v := by
  intro sels
  induction sels with
  | nil => exact ⟨none, rfl⟩
  | cons sel rest ih =>
    rcases h : trySelector pg cps sel with msg | v
    · simpa [strat1, h] using ih
    · rcases v with _ | r
      · simpa [strat1, h] using ih
      · exact ⟨some r, by simp [strat1, h]⟩

theorem strat2_isOk (pg : Page) :
    ∀ pats, ∃ v, strat2 pg pats = Except.ok v := by
  intro pats
  induction pats with
  | nil => exact ⟨none, rfl⟩
  | cons pat rest ih =>
    rcases h : tryTextPattern pg pat with msg | v
    · simpa [strat2, h] using ih
    · rcases v with _ | r
      · simpa [strat2, h] using ih
      · exact ⟨some r, by simp [strat2, h]⟩

theorem strat3_isOk (pg : Page) :
    ∀ attrs, ∃ v, strat3 pg attrs = Except.ok v := by
  intro attrs
  induction attrs with
  | nil => exact ⟨none, rfl⟩
  | cons a rest ih =>
    rcases h : tryAttr pg a with msg | v
    · simpa [strat3, h] using ih
    · rcases v with _ | r
      · simpa [strat3, h] using ih
      · exact ⟨some r, by simp [strat3, h]⟩

/-- Every fallible step of the locator sits under a per-candidate `catch`, so
the locator as a whole never propagates an exception. -/
theorem find_isOk (pg : Page) (cfg : ElementSpec) :
    ∃ v, findElementWithMultipleStrategies pg cfg = Except.ok v := by
  obtain ⟨v1, h1⟩ := strat1_isOk pg cfg.contentPatterns cfg.selectors
  rcases v1 with _ | r
  · obtain ⟨v2, h2⟩ := strat2_isOk pg cfg.textPatterns
    rcases v2 with _ | r
    · obtain ⟨v3, h3⟩ := strat3_isOk pg cfg.attributes
      rcases v3 with _ | r
      · exact ⟨strat4 pg cfg.contentPatterns,
          by simp [findElementWithMultipleStrategies, h1, h2, h3]⟩
      · exact ⟨some r, by simp [findElementWithMultipleStrategies, h1, h2, h3]⟩
    · exact ⟨some r, by simp [findElementWithMultipleStrategies, h1, h2]⟩
  · exact ⟨some r, by simp [findElementWithMultipleStrategies, h1]⟩

/-- The total wrapper agrees with the raw locator everywhere. -/
theorem find_eq_ok_locate (pg : Page) (cfg : ElementSpec) :
    findElementWithMultipleStrategies pg cfg = Except.ok (locate pg cfg) := by
  obtain ⟨v, h⟩ := find_isOk pg cfg
  simp [locate, h]

theorem strat1_none (pg : Page) (cps : List ContentPattern) :
    ∀ sels, (∀ sel ∈ sels, pg.queryAll sel = .ok []) →
      strat1 pg cps sels = Except.ok none := by
  intro sels
  induction sels with
  | nil => intro _; rfl
  | cons sel rest ih =>
    intro h
    have hsel := h sel (by simp)
    have hrest : ∀ s ∈ rest, pg.queryAll s = .ok [] := fun s hs => h s (by simp [hs])
    simp [strat1, trySelector, hsel, scanElements, ih hrest]

theorem strat2_none (pg : Page) :
    ∀ pats, (∀ pat ∈ pats, pg.getByText pat = .ok []) →
      strat2 pg pats = Except.ok none := by
  intro pats
  induction pats with
  | nil => intro _; rfl
  | cons pat rest ih =>
    intro h
    have hpat := h pat (by simp)
    have hrest : ∀ p ∈ rest, pg.getByText p = .ok [] := fun p hp => h p (by simp [hp])
    simp [strat2, tryTextPattern, hpat, ih hrest]

theorem strat3_none (pg : Page) :
    ∀ attrs, (∀ a ∈ attrs, pg.queryAll (attrSelector a) = .ok []) →
      strat3 pg attrs = Except.ok none := by
  intro attrs
  induction attrs with
  | nil => intro _; rfl
  | cons a rest ih =>
    intro h
    have ha := h a (by simp)
    have hrest : ∀ x ∈ rest, pg.queryAll (attrSelector x) = .ok [] :=
      fun x hx => h x (by simp [hx])
    simp [strat3, tryAttr, ha, scanAttrElements, ih hrest]

theorem strat4_none (pg : Page) (cps : List ContentPattern)
    (h : pg.evalScan cps = .ok none) : strat4 pg cps = none := by
  unfold strat4
  split
  · rw [h]
  · rfl

/-! ### Witness fixtures: concrete pages and elements -/

/-- A healthy element handle whose rendered and raw text are both `txt`. -/
def okElem (txt : String) : Element :=
  ⟨.ok true, .ok (some txt), .ok (some txt), .ok true⟩

/-- A page on which exactly one selector returns elements and every other
query is empty and healthy. -/
def pageWith (sel : String) (es : List Element) : Page :=
  ⟨fun s => if s = sel then .ok es else .ok [],
   fun _ => .ok none, fun _ => .ok [], fun _ => .ok none⟩

/-- A page on which every query is empty and healthy. -/
def emptyPage : Page :=
  ⟨fun _ => .ok [], fun _ => .ok none, fun _ => .ok [], fun _ => .ok none⟩

/-! ### C8 -/

/-- C8: the locator never raises — every per-strategy and per-candidate
failure is swallowed, so `findElementWithMultipleStrategies` always returns
an `ok` outcome — and on a page where every strategy has zero matching
elements it returns absent (`none`) rather than raising. -/
theorem locator_never_raises :
    (∀ pg cfg, ∃ v, findElementWithMultipleStrategies pg cfg = Except.ok v) ∧
    (∀ pg cfg, NoMatches pg cfg → findElementWithMultipleStrategies pg cfg = Except.ok none) := by
  refine ⟨find_isOk, ?_⟩
  intro pg cfg h
  obtain ⟨h1, h2, h3, h4⟩ := h
  simp [findElementWithMultipleStrategies,
    strat1_none pg cfg.contentPatterns cfg.selectors h1,
    strat2_none pg cfg.textPatterns h2,
    strat3_none pg cfg.attributes h3,
    strat4_none pg cfg.contentPatterns h4]

/-- Witness for C8 at a concrete page with no matches for the title spec. -/
theorem locator_never_raises_witness :
    NoMatches emptyPage titleConfig ∧
      findElementWithMultipleStrategies emptyPage titleConfig = Except.ok none :=
  ⟨⟨fun _ _ => rfl, fun _ _ => rfl, fun _ _ => rfl, rfl⟩,
   locator_never_raises.2 emptyPage titleConfig
     ⟨fun _ _ => rfl, fun _ _ => rfl, fun _ _ => rfl, rfl⟩⟩

/-! ### Strategy-tag characterisations -/

theorem scanElements_pattern_tag (cps : List ContentPattern) (sel : String)
    (hc : cps.length > 0) :
    ∀ es r, scanElements cps sel es = .ok (some r) →
      r.strategy = "css-pattern" ∧ cps.any (fun p => patternTest p r.text) = true := by
  intro es
  induction es with
  | nil => intro r h; simp [scanElements] at h
  | cons e rest ih =>
    intro r h
    rw [scanElements] at h
    rcases hv : e.isVisible with msg | vis
    · rw [hv] at h; cases h
    · rw [hv] at h
      cases vis with
      | false => simp only [Bool.false_eq_true, if_false] at h; exact ih r h
      | true =>
        simp only [if_true] at h
        rcases hce : elemContent e with msg | content
        · rw [hce] at h; cases h
        · simp only [hce] at h
          by_cases hlen : content.length > 0
          · rw [if_pos hlen, if_pos hc] at h
            by_cases hmatch : cps.any (fun p => patternTest p content) = true
            · rw [if_pos hmatch] at h
              cases h
              exact ⟨rfl, hmatch⟩
            · rw [if_neg hmatch] at h
              exact ih r h
          · rw [if_neg hlen] at h
            exact ih r h

theorem scanElements_nopattern_tag (sel : String) :
    ∀ es r, scanElements [] sel es = .ok (some r) → r.strategy = "css" := by
  intro es
  induction es with
  | nil => intro r h; simp [scanElements] at h
  | cons e rest ih =>
    intro r h
    rw [scanElements] at h
    rcases hv : e.isVisible with msg | vis
    · rw [hv] at h; cases h
    · rw [hv] at h
      cases vis with
      | false => simp only [Bool.false_eq_true, if_false] at h; exact ih r h
      | true =>
        simp only [if_true] at h
        rcases hce : elemContent e with msg | content
        · rw [hce] at h; cases h
        · simp only [hce] at h
          by_cases hlen : content.length > 0
          · rw [if_pos hlen] at h
            simp only [List.length_nil, Nat.lt_irrefl, if_false] at h
            cases h
            rfl
          · rw [if_neg hlen] at h
            exact ih r h

theorem strat1_pattern_tag (pg : Page) (cps : List ContentPattern)
    (hc : cps.length > 0) :
    ∀ sels r, strat1 pg cps sels = .ok (some r) →
      r.strategy = "css-pattern" ∧ cps.any (fun p => patternTest p r.text) = true := by
  intro sels
  induction sels with
  | nil => intro r h; simp [strat1] at h
  | cons sel rest ih =>
    intro r h
    rw [strat1] at h
    rcases ht : trySelector pg cps sel with msg | v
    · rw [ht] at h
      exact ih r h
    · rw [ht] at h
      rcases v with _ | r0
      · exact ih r h
      · cases h
        rcases hq : pg.queryAll sel with msg | es
        · rw [trySelector, hq] at ht; cases ht
        · rw [trySelector, hq] at ht
          exact scanElements_pattern_tag cps sel hc es r ht

theorem tryTextPattern_tag (pg : Page) (pat : String) (r : LocateResult)
    (h : tryTextPattern pg pat = .ok (some r)) : r.strategy = "text" := by
  rw [tryTextPattern] at h
  split at h
  · cases h
  · cases h
  · split at h
    · cases h
    · split at h
      · split at h
        · cases h
        · cases h; rfl
      · cases h

theorem strat2_tag (pg : Page) :
    ∀ pats r, strat2 pg pats = .ok (some r) → r.strategy = "text" := by
  intro pats
  induction pats with
  | nil => intro r h; simp [strat2] at h
  | cons pat rest ih =>
    intro r h
    rw [strat2] at h
    rcases ht : tryTextPattern pg pat with msg | v
    · rw [ht] at h; exact ih r h
    · rw [ht] at h
      rcases v with _ | r0
      · exact ih r h
      · cases h
        exact tryTextPattern_tag pg pat r ht

theorem scanAttrElements_tag (sel : String) :
    ∀ es r, scanAttrElements sel es = .ok (some r) → r.strategy = "attribute" := by
  intro es
  induction es with
  | nil => intro r h; simp [scanAttrElements] at h
  | cons e rest ih =>
    intro r h
    rw [scanAttrElements] at h
    rcases hv : e.isVisible with msg | vis
    · rw [hv] at h; cases h
    · rw [hv] at h
      cases vis with
      | false => simp only [Bool.false_eq_true, if_false] at h; exact ih r h
      | true =>
        simp only [if_true] at h
        rcases htc : e.textContent with msg | text
        · rw [htc] at h; cases h
        · simp only [htc] at h
          by_cases hlen : (trimStr (text.getD "")).length > 0
          · rw [if_pos hlen] at h
            cases h
            rfl
          · rw [if_neg hlen] at h
            exact ih r h

theorem strat3_tag (pg : Page) :
    ∀ attrs r, strat3 pg attrs = .ok (some r) → r.strategy = "attribute" := by
  intro attrs
  induction attrs with
  | nil => intro r h; simp [strat3] at h
  | cons a rest ih =>
    intro r h
    rw [strat3] at h
    rcases ht : tryAttr pg a with msg | v
    · rw [ht] at h; exact ih r h
    · rw [ht] at h
      rcases v with _ | r0
      · exact ih r h
      · cases h
        rcases hq : pg.queryAll (attrSelector a) with msg | es
        · rw [tryAttr, hq] at ht; cases ht
        · rw [tryAttr, hq] at ht
          exact scanAttrElements_tag (attrSelector a) es r ht

theorem strat4_tag (pg : Page) (cps : List ContentPattern) (r : LocateResult)
    (h : strat4 pg cps = some r) : r.strategy = "content-search" := by
  rw [strat4] at h
  split at h
  · split at h
    · cases h
    · cases h
    · split at h
      · cases h
      · cases h
      · cases h; rfl
  · cases h

/-! ### C3 -/

/-- C3: when an element specification carries at least one content pattern,
the locator never returns a result tagged `css`; a structural-selector match
is tagged `css-pattern` and only returned when its extracted text matches at
least one content pattern. -/
theorem patterned_locate_never_css (pg : Page) (cfg : ElementSpec) (r : LocateResult)
    (hc : cfg.contentPatterns ≠ [])
    (h : findElementWithMultipleStrategies pg cfg = .ok (some r)) :
    r.strategy ≠ "css" ∧
      (r.strategy = "css-pattern" →
        cfg.contentPatterns.any (fun p => patternTest p r.text) = true) := by
  have hlen : cfg.contentPatterns.length > 0 := List.length_pos.mpr hc
  rw [findElementWithMultipleStrategies] at h
  rcases h1 : strat1 pg cfg.contentPatterns cfg.selectors with msg | v1
  · rw [h1] at h; cases h
  · rw [h1] at h
    rcases v1 with _ | r1
    · rcases h2 : strat2 pg cfg.textPatterns with msg | v2
      · rw [h2] at h; cases h
      · rw [h2] at h
        rcases v2 with _ | r2
        · rcases h3 : strat3 pg cfg.attributes with msg | v3
          · rw [h3] at h; cases h
          · rw [h3] at h
            rcases v3 with _ | r3
            · have h4 : strat4 pg cfg.contentPatterns = some r := Except.ok.inj h
              have htag := strat4_tag pg cfg.contentPatterns r h4
              constructor
              · rw [htag]; decide
              · intro hcp; rw [htag] at hcp; exact absurd hcp (by decide)
            · cases h
              have := strat3_tag pg cfg.attributes r h3
              constructor
              · rw [this]; decide
              · intro hcp; rw [this] at hcp; exact absurd hcp (by decide)
        · cases h
          have := strat2_tag pg cfg.textPatterns r h2
          constructor
          · rw [this]; decide
          · intro hcp; rw [this] at hcp; exact absurd hcp (by decide)
    · cases h
      obtain ⟨htag, hmatch⟩ := strat1_pattern_tag pg cfg.contentPatterns hlen cfg.selectors r h1
      constructor
      · rw [htag]; decide
      · intro _; exact hmatch

/-- Concrete fixture for C3: a patterned spec over a two-element page whose
first visible element fails the pattern and is skipped. -/
def c3spec : ElementSpec where
  selectors := ["p"]
  contentPatterns := [.str "price"]

/-- The page of the C3 witness. -/
def c3page : Page :=
  pageWith "p" [okElem "Hello world", okElem "Price: 9 dollars"]

/-- The result the locator returns on the C3 fixture. -/
def c3res : LocateResult :=
  ⟨okElem "Price: 9 dollars", "Price: 9 dollars", "p", "css-pattern"⟩

/-- Witness for C3: on the fixture, the pattern-failing first element is
skipped, the returned result is tagged `css-pattern`, not `css`, and its text
matches a pattern. -/
theorem patterned_locate_never_css_witness :
    findElementWithMultipleStrategies c3page c3spec = .ok (some c3res) ∧
      (c3res.strategy ≠ "css" ∧
        (c3res.strategy = "css-pattern" →
          c3spec.contentPatterns.any (fun p => patternTest p c3res.text) = true)) :=
  ⟨by decide,
   patterned_locate_never_css c3page c3spec c3res (List.cons_ne_nil _ _) (by decide)⟩

/-! ### C6 -/

theorem elemContent_spec (e : Element) (h : ElemOpsOk e) :
    elemContent e = .ok (specElemText e) := by
  obtain ⟨⟨b, hv⟩, ⟨tc, htc⟩, ⟨it, hit⟩⟩ := h
  rw [elemContent, specElemText, htc, hit]
  rfl

theorem scanElements_nil_spec (sel : String) :
    ∀ es, (∀ e ∈ es, ElemOpsOk e) →
      scanElements [] sel es = .ok
        (match firstGoodElem es with
         | some e => some ⟨e, specElemText e, sel, "css"⟩
         | none => none) := by
  intro es
  induction es with
  | nil => intro _; rfl
  | cons e rest ih =>
    intro h
    have he : ElemOpsOk e := h e (by simp)
    have hrest : ∀ x ∈ rest, ElemOpsOk x := fun x hx => h x (by simp [hx])
    obtain ⟨⟨b, hv⟩, _, _⟩ := id he
    have hvd : elemVisibleD e = b := by rw [elemVisibleD, hv]
    rw [scanElements, hv, firstGoodElem]
    cases b with
    | false =>
      simp only [hvd, Bool.false_and, Bool.false_eq_true, if_false]
      exact ih hrest
    | true =>
      simp only [hvd, Bool.true_and, if_true, elemContent_spec e he]
      rw [if_neg (by decide : ¬([] : List ContentPattern).length > 0)]
      by_cases hlen : (specElemText e).length > 0
      · rw [if_pos hlen,
          if_pos (show decide ((specElemText e).length > 0) = true by simp [hlen])]
      · rw [if_neg hlen,
          if_neg (show ¬decide ((specElemText e).length > 0) = true by simp [hlen])]
        exact ih hrest

theorem strat1_nil_spec (pg : Page) :
    ∀ sels, SelectorsOk pg sels →
      strat1 pg [] sels = .ok (specFirstVisible pg sels) := by
  intro sels
  induction sels with
  | nil => intro _; rfl
  | cons sel rest ih =>
    intro h
    obtain ⟨es, hq, hes⟩ := h sel (by simp)
    have hrest : SelectorsOk pg rest := fun s hs => h s (by simp [hs])
    rcases hfind : firstGoodElem es with _ | e0
    · have hts : trySelector pg [] sel = .ok none := by
        simp only [trySelector, hq]
        rw [scanElements_nil_spec sel es hes, hfind]
      simp only [strat1, hts, specFirstVisible, hq, hfind]
      exact ih hrest
    · have hts : trySelector pg [] sel = .ok (some ⟨e0, specElemText e0, sel, "css"⟩) := by
        simp only [trySelector, hq]
        rw [scanElements_nil_spec sel es hes, hfind]
      simp only [strat1, hts, specFirstVisible, hq, hfind]

/-- C6: for a specification with only structural selectors (no content, text
or attribute patterns), the locator returns exactly the spec's reference
behaviour on any page whose selector queries are healthy: the first visible
element with non-empty trimmed text, in selector-list order then DOM order,
tagged `css` with that selector as provenance. -/
theorem css_only_locate_first_visible (pg : Page) (cfg : ElementSpec)
    (hc : cfg.contentPatterns = []) (ht : cfg.textPatterns = [])
    (ha : cfg.attributes = []) (hok : SelectorsOk pg cfg.selectors) :
    findElementWithMultipleStrategies pg cfg = .ok (specFirstVisible pg cfg.selectors) := by
  rw [findElementWithMultipleStrategies, hc, ht, ha, strat1_nil_spec pg cfg.selectors hok]
  rcases specFirstVisible pg cfg.selectors with _ | r
  · rfl
  · rfl

/-- A hidden element for the C6 fixture. -/
def hiddenElem (txt : String) : Element :=
  ⟨.ok false, .ok (some txt), .ok (some txt), .ok true⟩

/-- The C6 fixture page: the first selector yields a hidden element and an
empty-text element, the second yields a visible element with text. -/
def c6page : Page :=
  ⟨fun s =>
     if s = "h1" then .ok [hiddenElem "Hidden", okElem ""]
     else if s = ".t" then .ok [okElem "Second"]
     else .ok [],
   fun _ => .ok none, fun _ => .ok [], fun _ => .ok none⟩

/-- The C6 fixture specification: structural selectors only. -/
def c6spec : ElementSpec where
  selectors := ["h1", ".t"]

/-- Witness for C6: on the fixture, the locator skips the hidden and the
empty-text candidates and returns the visible second-selector element tagged
`css`. -/
theorem css_only_locate_first_visible_witness :
    findElementWithMultipleStrategies c6page c6spec =
        .ok (specFirstVisible c6page c6spec.selectors) ∧
      specFirstVisible c6page c6spec.selectors =
        some ⟨okElem "Second", "Second", ".t", "css"⟩ :=
  ⟨css_only_locate_first_visible c6page c6spec rfl rfl rfl
     (by
       intro sel hsel
       fin_cases hsel
       · exact ⟨_, rfl, by
           intro e he
           fin_cases he <;> exact ⟨⟨_, rfl⟩, ⟨_, rfl⟩, ⟨_, rfl⟩⟩⟩
       · exact ⟨_, rfl, by
           intro e he
           fin_cases he
           exact ⟨⟨_, rfl⟩, ⟨_, rfl⟩, ⟨_, rfl⟩⟩⟩),
   by decide⟩

/-! ### Field-preservation lemmas for the per-element updates -/

theorem applyTitle_desc (res : PageResult) (o : Option LocateResult) :
    (applyTitle res o).elements.description = res.elements.description := by
  cases o <;> rfl

theorem applyPrice_desc (res : PageResult) (o : Option LocateResult) :
    (applyPrice res o).elements.description = res.elements.description := by
  cases o <;> rfl

theorem applyAddToCart_desc (res : PageResult) (o : Option LocateResult) :
    (applyAddToCart res o).elements.description = res.elements.description := by
  cases o <;> rfl

theorem applyVariants_desc (res : PageResult) (x : Except String (Nat × String × String)) :
    (applyVariants res x).elements.description = res.elements.description := by
  rcases x with msg | ⟨n, s, t⟩
  · rfl
  · rw [applyVariants]
    by_cases hn : n > 0
    · rw [if_pos hn]
    · rw [if_neg hn]

theorem applyAvailability_desc (res : PageResult) (o : Option LocateResult) :
    (applyAvailability res o).elements.description = res.elements.description := by
  cases o <;> rfl

theorem applyTitle_cart (res : PageResult) (o : Option LocateResult) :
    (applyTitle res o).elements.addToCart = res.elements.addToCart := by
  cases o <;> rfl

theorem applyPrice_cart (res : PageResult) (o : Option LocateResult) :
    (applyPrice res o).elements.addToCart = res.elements.addToCart := by
  cases o <;> rfl

theorem applyDescription_cart (res : PageResult) (o : Option LocateResult) :
    (applyDescription res o).elements.addToCart = res.elements.addToCart := by
  cases o <;> rfl

theorem applyVariants_cart (res : PageResult) (x : Except String (Nat × String × String)) :
    (applyVariants res x).elements.addToCart = res.elements.addToCart := by
  rcases x with msg | ⟨n, s, t⟩
  · rfl
  · rw [applyVariants]
    by_cases hn : n > 0
    · rw [if_pos hn]
    · rw [if_neg hn]

theorem applyAvailability_cart (res : PageResult) (o : Option LocateResult) :
    (applyAvailability res o).elements.addToCart = res.elements.addToCart := by
  cases o <;> rfl

/-! ### C1 -/

/-- Counterexample for C1: an availability element whose matched text is
`"Unavailable"` is stored with stock flag `true`, not `false` — the first
branch of the derivation fires because `"unavailable"` contains
`"available"` as a substring. -/
theorem availability_unavailable_counterexample :
    (applyAvailability { url := "u" }
        (some ⟨okElem "Unavailable", "Unavailable", ".stock-status", "css-pattern"⟩)
      ).elements.availability.inStock = some true ∧
    (applyAvailability { url := "u" }
        (some ⟨okElem "Unavailable", "Unavailable", ".stock-status", "css-pattern"⟩)
      ).elements.availability.inStock ≠ some false := by
  constructor
  · decide
  · decide

/-- C1 (amended): the tri-state flag follows the ordered, case-insensitive
derivation of the source — if the lowered text contains `"in stock"` or
`"available"` the flag is `true`; otherwise, if it contains `"out of stock"`
or `"unavailable"`, the flag is `false`; otherwise it stays unknown.  In
particular `"In Stock"` yields `true`, `"Out of Stock"` yields `false`,
`"Ships free"` yields unknown, and `"Unavailable"` yields `true` (not
`false`), because it contains `"available"`. -/
theorem availability_tristate_mapping :
    (∀ (res : PageResult) (r : LocateResult),
      (applyAvailability res (some r)).elements.availability.inStock =
        (if jsIncludes (lowerStr r.text) "in stock" ∨ jsIncludes (lowerStr r.text) "available" then
          some true
         else if jsIncludes (lowerStr r.text) "out of stock" ∨
             jsIncludes (lowerStr r.text) "unavailable" then
          some false
         else none)) ∧
    deriveInStock "In Stock" = some true ∧
    deriveInStock "Out of Stock" = some false ∧
    deriveInStock "Ships free" = none ∧
    deriveInStock "Unavailable" = some true := by
  refine ⟨fun res r => ?_, by decide, by decide, by decide, by decide⟩
  show deriveInStock r.text = _
  rw [deriveInStock]
  by_cases h1 : jsIncludes (lowerStr r.text) "in stock" ∨ jsIncludes (lowerStr r.text) "available"
  · rw [if_pos (by simpa using h1), if_pos h1]
  · rw [if_neg (by simpa using h1), if_neg h1]
    by_cases h2 : jsIncludes (lowerStr r.text) "out of stock" ∨
        jsIncludes (lowerStr r.text) "unavailable"
    · rw [if_pos (by simpa using h2), if_pos h2]
    · rw [if_neg (by simpa using h2), if_neg h2]

/-! ### C2 -/

theorem passed_eq_computePassed (env : PageEnv) (url : String) :
    (testProductPage env url).passed = computePassed (testProductPage env url).elements := by
  rw [testProductPage]
  cases hg : env.gotoR with
  | error msg => rfl
  | ok u =>
    cases hw : env.waitTimeoutR with
    | error msg => rfl
    | ok u2 => rfl

/-- C2: a PageResult passes iff title and price are present and at least one
of add-to-cart or variants is present; the description and availability
checks never influence the verdict, and the verdict table holds on all 16
combinations of the four booleans. -/
theorem pass_verdict_semantics :
    (∀ env url, ((testProductPage env url).passed = true ↔
      ((testProductPage env url).elements.title.present = true ∧
        (testProductPage env url).elements.price.present = true ∧
        ((testProductPage env url).elements.addToCart.present = true ∨
          (testProductPage env url).elements.variants.present = true)))) ∧
    (∀ (e : Elements) (d : TextCheck) (a : AvailCheck),
      computePassed { e with description := d, availability := a } = computePassed e) ∧
    (∀ t p c v : Bool,
      computePassed ⟨⟨t, "", "", ""⟩, ⟨p, "", "", ""⟩, ⟨c, false, "", ""⟩, {}, ⟨v, 0, "", ""⟩, {}⟩ =
        (t && p && (c || v))) := by
  refine ⟨fun env url => ?_, fun e d a => rfl, by decide⟩
  rw [passed_eq_computePassed env url, computePassed]
  simp [Bool.and_eq_true, Bool.or_eq_true, and_assoc]

/-! ### C10 -/

theorem takeStr_le (n : Nat) (s : String) : (takeStr n s).length ≤ n := by
  rw [takeStr]
  show (s.data.take n).length ≤ n
  exact List.length_take_le n s.data

/-- C10: the stored description text is truncated to at most 200 characters
in every PageResult, while the stored title, price and availability texts
are exactly the located element's text, never truncated; the description
text stored on a located element is exactly the first 200 characters. -/
theorem description_truncated_only :
    (∀ env url, ((testProductPage env url).elements.description.text).length ≤ 200) ∧
    (∀ (res : PageResult) (r : LocateResult),
      (applyTitle res (some r)).elements.title.text = r.text) ∧
    (∀ (res : PageResult) (r : LocateResult),
      (applyPrice res (some r)).elements.price.text = r.text) ∧
    (∀ (res : PageResult) (r : LocateResult),
      (applyAvailability res (some r)).elements.availability.text = r.text) ∧
    (∀ (res : PageResult) (r : LocateResult),
      (applyDescription res (some r)).elements.description.text = takeStr 200 r.text) := by
  refine ⟨fun env url => ?_, fun res r => rfl, fun res r => rfl, fun res r => rfl,
    fun res r => rfl⟩
  rw [testProductPage]
  cases hg : env.gotoR with
  | error msg => simp
  | ok u =>
    cases hw : env.waitTimeoutR with
    | error msg => simp
    | ok u2 =>
      simp only [applyAvailability_desc, applyVariants_desc]
      cases hd : locate env.dom descConfig with
      | none =>
        simp only [applyDescription, applyAddToCart_desc, applyPrice_desc, applyTitle_desc]
        simp
      | some r =>
        simp only [applyDescription]
        exact takeStr_le 200 r.text

/-! ### C9 -/

/-- C9: when an add-to-cart element is located, its clickable flag is the
short-circuit conjunction of the element's enabled and visible states; if
that check itself raises the flag defaults to `true`; when no add-to-cart
element is located the flag keeps its default `false`. -/
theorem addtocart_clickable_semantics :
    (∀ (e : Element) (b1 b2 : Bool), e.isEnabled = .ok b1 → e.isVisible = .ok b2 →
      checkClickable e = (b1 && b2)) ∧
    (∀ (e : Element) (msg : String), e.isEnabled = .error msg → checkClickable e = true) ∧
    (∀ (e : Element) (msg : String), e.isEnabled = .ok true → e.isVisible = .error msg →
      checkClickable e = true) ∧
    (∀ (res : PageResult) (r : LocateResult),
      (applyAddToCart res (some r)).elements.addToCart =
        ⟨true, checkClickable r.element, r.selector, r.strategy⟩) ∧
    (∀ res : PageResult, applyAddToCart res none = res) ∧
    (∀ env url, env.gotoR = .ok () → env.waitTimeoutR = .ok () →
      locate env.dom cartConfig = none →
      (testProductPage env url).elements.addToCart.clickable = false) := by
  refine ⟨?_, ?_, ?_, fun res r => rfl, fun res => rfl, ?_⟩
  · intro e b1 b2 h1 h2
    cases b1 with
    | false => simp [checkClickable, h1]
    | true => simp [checkClickable, h1, h2]
  · intro e msg h1
    simp [checkClickable, h1]
  · intro e msg h1 h2
    simp [checkClickable, h1, h2]
  · intro env url hg hw hc
    rw [testProductPage, hg, hw]
    simp only [applyAvailability_cart, applyVariants_cart, applyDescription_cart, hc]
    simp only [applyAddToCart, applyPrice_cart, applyTitle_cart]

/-- An element whose enabled check throws (e.g. a node detached between
locate and the clickability probe). -/
def brokenCartElem : Element :=
  ⟨.ok true, .ok none, .ok none, .error "detached"⟩

/-- A page environment whose DOM has no add-to-cart candidates at all. -/
def c9env : PageEnv where
  gotoR := .ok ()
  waitTimeoutR := .ok ()
  dom := emptyPage
  variantContainers := .ok []
  loadTimeMs := 5

/-- Witness for C9: a healthy element's flag is the enabled/visible
conjunction, a throwing check defaults to `true`, and a page with no
add-to-cart element keeps the default `false`. -/
theorem addtocart_clickable_semantics_witness :
    ((okElem "Add to Cart").isEnabled = Except.ok true ∧
      checkClickable (okElem "Add to Cart") = (true && true)) ∧
    (brokenCartElem.isEnabled = Except.error "detached" ∧
      checkClickable brokenCartElem = true) ∧
    (locate c9env.dom cartConfig = none ∧
      (testProductPage c9env "https://shop.example/p1").elements.addToCart.clickable = false) :=
  ⟨⟨rfl, addtocart_clickable_semantics.1 (okElem "Add to Cart") true true rfl rfl⟩,
   ⟨rfl, addtocart_clickable_semantics.2.1 brokenCartElem "detached" rfl⟩,
   ⟨by decide,
    addtocart_clickable_semantics.2.2.2.2.2 c9env "https://shop.example/p1" rfl rfl (by decide)⟩⟩

/-! ### C7 -/

/-- C7: variant detection is two-tier — a positive count from the first
container with interactive children is used as-is (selector
`container-based`, strategy `container`); the locator fallback runs only
when tier 1 counts zero, and then counts all elements sharing the matched
selector; the variants check is present exactly when the final count is
positive. -/
theorem variants_two_tier :
    (∀ env cs n s t, env.variantContainers = .ok cs →
      countContainerOptions cs = .ok (n, s, t) → n > 0 →
      variantBlock env = .ok (n, s, t)) ∧
    (∀ env cs, env.variantContainers = .ok cs →
      countContainerOptions cs = .ok (0, "", "") →
      variantBlock env = variantTier2 env) ∧
    (∀ env r es, locate env.dom variantConfig = some r →
      env.dom.queryAll r.selector = .ok es →
      variantTier2 env = .ok (es.length, r.selector, r.strategy)) ∧
    (∀ (res : PageResult) (x : Except String (Nat × String × String)),
      res.elements.variants.present = false →
      ((applyVariants res x).elements.variants.present = true ↔
        ∃ n s t, x = .ok (n, s, t) ∧ n > 0)) ∧
    (∀ (res : PageResult) n s t, 0 < n →
      (applyVariants res (.ok (n, s, t))).elements.variants = ⟨true, n, s, t⟩) := by
  refine ⟨?_, ?_, ?_, ?_, ?_⟩
  · intro env cs n s t hc hcount hn
    simp only [variantBlock, hc, hcount]
    rw [if_neg (Nat.pos_iff_ne_zero.mp hn)]
  · intro env cs hc hcount
    simp only [variantBlock, hc, hcount]
    rw [if_pos trivial]
  · intro env r es hloc hq
    simp only [variantTier2, hloc, hq]
  · intro res x hres
    rcases x with msg | ⟨n, s, t⟩
    · rw [applyVariants]
      simp [hres]
    · rw [applyVariants]
      by_cases hn : n > 0
      · rw [if_pos hn]
        simp only [show (({ res with elements.variants := ⟨true, n, s, t⟩ } :
            PageResult).elements.variants.present) = true from rfl, true_iff]
        exact ⟨n, s, t, rfl, hn⟩
      · rw [if_neg hn]
        rw [hres]
        constructor
        · intro h; cases h
        · rintro ⟨n', s', t', heq, hpos⟩
          cases heq
          exact absurd hpos hn
  · intro res n s t hn
    rw [applyVariants, if_pos hn]

/-- The C7 tier-1 fixture: one option container with two interactive
children. -/
def c7envTier1 : PageEnv where
  gotoR := .ok ()
  waitTimeoutR := .ok ()
  dom := emptyPage
  variantContainers := .ok [⟨.ok [okElem "S", okElem "M"]⟩]
  loadTimeMs := 0

/-- The C7 fallback fixture: no option containers, but a `select` element
the locator finds. -/
def c7envTier2 : PageEnv where
  gotoR := .ok ()
  waitTimeoutR := .ok ()
  dom := pageWith "select" [okElem "Small"]
  variantContainers := .ok []
  loadTimeMs := 0

/-- Witness for C7: tier 1 counts the two container children and the
fallback never runs; with zero containers the fallback counts the elements
sharing the matched selector. -/
theorem variants_two_tier_witness :
    variantBlock c7envTier1 = .ok (2, "container-based", "container") ∧
    variantBlock c7envTier2 = variantTier2 c7envTier2 ∧
    (applyVariants { url := "u" } (variantBlock c7envTier1)).elements.variants =
      ⟨true, 2, "container-based", "container"⟩ :=
  ⟨variants_two_tier.1 c7envTier1 _ 2 "container-based" "container" rfl (by decide) (by decide),
   variants_two_tier.2.1 c7envTier2 [] rfl (by decide),
   by
     rw [variants_two_tier.1 c7envTier1 [⟨.ok [okElem "S", okElem "M"]⟩] 2
       "container-based" "container" rfl (by decide) (by decide)]
     exact variants_two_tier.2.2.2.2 { url := "u" } 2 "container-based" "container" (by decide)⟩

/-! ### C4 -/

/-- C4: a page whose navigation throws yields a well-formed PageResult whose
error list holds exactly the thrown message, with `passed = false` and all
six element checks in their default absent shape; and the orchestrator still
validates every configured page in order, never aborting the loop on a
failing page. -/
theorem page_failure_isolated :
    (∀ env url msg, env.gotoR = .error msg →
      testProductPage env url = { url := url, errors := [msg] } ∧
      (testProductPage env url).passed = false ∧
      (testProductPage env url).elements = {} ∧
      (testProductPage env url).errors ≠ []) ∧
    (∀ env url msg, env.gotoR = .ok () → env.waitTimeoutR = .error msg →
      testProductPage env url = { url := url, errors := [msg] }) ∧
    (∀ renv : RunEnv, renv.createSaveR = .ok () → renv.acquireR = .ok () →
      renv.closeR = .ok () → (∃ ai, renv.aiR = .ok ai) → renv.finalSaveR = .ok () →
      ∃ tr, (runTest renv).result = .ok tr ∧
        tr.productPageTests = renv.pages.map (fun p => testProductPage p.2 p.1)) := by
  refine ⟨?_, ?_, ?_⟩
  · intro env url msg h
    have hval : testProductPage env url = { url := url, errors := [msg] } := by
      rw [testProductPage, h]
      rfl
    refine ⟨hval, by rw [hval], by rw [hval], by rw [hval]; simp⟩
  · intro env url msg hg hw
    rw [testProductPage, hg, hw]
    rfl
  · intro renv h1 h2 h3 hai h5
    obtain ⟨ai, h4⟩ := hai
    refine ⟨{ status := .completed, startTime := renv.startTime,
              endTime := some renv.endTimeOk,
              duration := some (renv.endTimeOk - renv.startTime),
              productPageTests := renv.pages.map (fun p => testProductPage p.2 p.1),
              imageValidation := renv.imagesR, aiAnalysis := some ai }, ?_, rfl⟩
    simp only [runTest, h1, h2, h3, h4, h5]

/-- The failing page of the C4 fixture (unreachable host). -/
def badPageEnv : PageEnv where
  gotoR := .error "net::ERR_NAME_NOT_RESOLVED"
  waitTimeoutR := .ok ()
  dom := emptyPage
  variantContainers := .ok []
  loadTimeMs := 0

/-- The healthy page of the C4 fixture. -/
def goodPageEnv : PageEnv where
  gotoR := .ok ()
  waitTimeoutR := .ok ()
  dom := pageWith "h1" [okElem "Widget"]
  variantContainers := .ok []
  loadTimeMs := 3

/-- A two-page run whose first page fails navigation. -/
def c4run : RunEnv where
  startTime := 100
  createSaveR := .ok ()
  acquireR := .ok ()
  pages := [("https://bad.example/p", badPageEnv), ("https://good.example/p", goodPageEnv)]
  imagesR := []
  closeR := .ok ()
  aiR := .ok {}
  finalSaveR := .ok ()
  failSaveR := .ok ()
  endTimeOk := 200
  endTimeFail := 150

/-- Witness for C4: the failing page's PageResult carries exactly the thrown
message with everything else default, and the two-page run still produces
both PageResults in order. -/
theorem page_failure_isolated_witness :
    testProductPage badPageEnv "https://bad.example/p" =
      { url := "https://bad.example/p", errors := ["net::ERR_NAME_NOT_RESOLVED"] } ∧
    (∃ tr, (runTest c4run).result = .ok tr ∧
      tr.productPageTests = c4run.pages.map (fun p => testProductPage p.2 p.1)) ∧
    ((runTest c4run).result.map (fun tr => tr.productPageTests.length) = .ok 2) :=
  ⟨(page_failure_isolated.1 badPageEnv "https://bad.example/p"
      "net::ERR_NAME_NOT_RESOLVED" rfl).1,
   page_failure_isolated.2.2 c4run rfl rfl rfl ⟨{}, rfl⟩ rfl,
   by decide⟩

/-! ### C5 -/

/-- C5: the execution record is created with status `running` before any
navigation (the head of its status history); the status is never set back to
`running`; exactly one terminal-status snapshot is ever persisted; when the
run propagates an exception (and the failure-path write succeeds), the last
persisted snapshot is `failed` with end time and duration stamped; and a
normally returned record is `completed` and is the last persisted snapshot. -/
theorem status_lifecycle (env : RunEnv) (hfs : env.failSaveR = .ok ()) :
    ((runTest env).statusTrace.head? = some .running) ∧
    (∀ s ∈ (runTest env).statusTrace.tail, s ≠ .running) ∧
    (((runTest env).saved.filter (fun r => decide (r.status ≠ .running))).length = 1) ∧
    (∀ e, (runTest env).result = .error e →
      ∃ tr, (runTest env).saved.getLast? = some tr ∧ tr.status = .failed ∧
        tr.endTime = some env.endTimeFail ∧
        tr.duration = some (env.endTimeFail - env.startTime)) ∧
    (∀ tr, (runTest env).result = .ok tr →
      tr.status = .completed ∧ (runTest env).saved.getLast? = some tr) := by
  rcases h1 : env.createSaveR with m1 | u1
  · simp only [runTest, h1, catchPath, hfs]
    refine ⟨rfl, ?_, rfl, ?_, ?_⟩
    · intro s hs
      simp only [List.cons_append, List.nil_append, List.tail_cons,
        List.mem_singleton] at hs
      subst hs
      decide
    · intro e _
      exact ⟨_, rfl, rfl, rfl, rfl⟩
    · intro tr htr
      cases htr
  · rcases h2 : env.acquireR with m2 | u2
    · simp only [runTest, h1, h2, catchPath, hfs]
      refine ⟨rfl, ?_, rfl, ?_, ?_⟩
      · intro s hs
        simp only [List.cons_append, List.nil_append, List.tail_cons,
          List.mem_singleton] at hs
        subst hs
        decide
      · intro e _
        exact ⟨_, rfl, rfl, rfl, rfl⟩
      · intro tr htr
        cases htr
    · rcases h3 : env.closeR with m3 | u3
      · simp only [runTest, h1, h2, h3, catchPath, hfs]
        refine ⟨rfl, ?_, rfl, ?_, ?_⟩
        · intro s hs
          simp only [List.cons_append, List.nil_append, List.tail_cons,
            List.mem_singleton] at hs
          subst hs
          decide
        · intro e _
          exact ⟨_, rfl, rfl, rfl, rfl⟩
        · intro tr htr
          cases htr
      · rcases h4 : env.aiR with m4 | ai
        · simp only [runTest, h1, h2, h3, h4, catchPath, hfs]
          refine ⟨rfl, ?_, rfl, ?_, ?_⟩
          · intro s hs
            simp only [List.cons_append, List.nil_append, List.tail_cons,
              List.mem_singleton] at hs
            subst hs
            decide
          · intro e _
            exact ⟨_, rfl, rfl, rfl, rfl⟩
          · intro tr htr
            cases htr
        · rcases h5 : env.finalSaveR with m5 | u5
          · simp only [runTest, h1, h2, h3, h4, h5, catchPath, hfs]
            refine ⟨rfl, ?_, rfl, ?_, ?_⟩
            · intro s hs
              simp at hs
              rcases hs with rfl | rfl <;> decide
            · intro e _
              exact ⟨_, rfl, rfl, rfl, rfl⟩
            · intro tr htr
              cases htr
          · simp only [runTest, h1, h2, h3, h4, h5]
            refine ⟨rfl, ?_, rfl, ?_, ?_⟩
            · intro s hs
              simp only [List.cons_append, List.nil_append, List.tail_cons,
                List.mem_singleton] at hs
              subst hs
              decide
            · intro e he
              cases he
            · intro tr htr
              cases htr
              exact ⟨rfl, rfl⟩

/-- A fully healthy one-page run for the C5 witness. -/
def c5run : RunEnv where
  startTime := 1000
  createSaveR := .ok ()
  acquireR := .ok ()
  pages := [("https://good.example/p", goodPageEnv)]
  imagesR := []
  closeR := .ok ()
  aiR := .ok {}
  finalSaveR := .ok ()
  failSaveR := .ok ()
  endTimeOk := 1500
  endTimeFail := 1200

/-- A run whose browser acquisition fails, for the C5 witness. -/
def c5runFail : RunEnv where
  startTime := 1000
  createSaveR := .ok ()
  acquireR := .error "browserType.launch failed"
  pages := []
  imagesR := []
  closeR := .ok ()
  aiR := .ok {}
  finalSaveR := .ok ()
  failSaveR := .ok ()
  endTimeOk := 1500
  endTimeFail := 1200

/-- Witness for C5 at the two concrete runs: the healthy run's trace is
`running, completed`, the failing run's trace is `running, failed`, and the
failing run persists a stamped `failed` snapshot. -/
theorem status_lifecycle_witness :
    ((runTest c5run).statusTrace = [.running, .completed] ∧
      (runTest c5runFail).statusTrace = [.running, .failed] ∧
      (runTest c5runFail).result = .error "browserType.launch failed") ∧
    ((runTest c5run).statusTrace.head? = some .running ∧
      (∀ s ∈ (runTest c5run).statusTrace.tail, s ≠ .running) ∧
      (((runTest c5run).saved.filter (fun r => decide (r.status ≠ .running))).length = 1) ∧
      (∀ e, (runTest c5run).result = .error e →
        ∃ tr, (runTest c5run).saved.getLast? = some tr ∧ tr.status = .failed ∧
          tr.endTime = some c5run.endTimeFail ∧
          tr.duration = some (c5run.endTimeFail - c5run.startTime)) ∧
      (∀ tr, (runTest c5run).result = .ok tr →
        tr.status = .completed ∧ (runTest c5run).saved.getLast? = some tr)) ∧
    ((runTest c5runFail).statusTrace.head? = some .running ∧
      (∀ s ∈ (runTest c5runFail).statusTrace.tail, s ≠ .running) ∧
      (((runTest c5runFail).saved.filter (fun r => decide (r.status ≠ .running))).length = 1) ∧
      (∀ e, (runTest c5runFail).result = .error e →
        ∃ tr, (runTest c5runFail).saved.getLast? = some tr ∧ tr.status = .failed ∧
          tr.endTime = some c5runFail.endTimeFail ∧
          tr.duration = some (c5runFail.endTimeFail - c5runFail.startTime)) ∧
      (∀ tr, (runTest c5runFail).result = .ok tr →
        tr.status = .completed ∧ (runTest c5runFail).saved.getLast? = some tr)) :=
  ⟨⟨rfl, rfl, rfl⟩, status_lifecycle c5run rfl, status_lifecycle c5runFail rfl⟩

end BrowserAtm

